import Mathlib

/-!
Shallow embedding of the golang-queue dispatcher core: the pool (`Queue`,
src/unnamed/part_000), the in-memory worker (`Consumer`, src/unnamed/part_001)
and the transport record (`Message`, src/unnamed/part_002).

Modelling choices:
* Go byte strings are quotiented by what `json.Unmarshal` observes: the nil
  slice, opaque non-JSON bytes, or the JSON object shape that `Message.Encode`
  produces (`ByteStr`).
* Callables (`job.TaskFunc` values) are opaque identifiers; their runtime
  behavior enters only through the execution environment `HEnv`.
* Durations (`time.Duration`, an int64 nanosecond count in Go) are `Int`.
* Channel-based state is explicit: a bounded FIFO list plus closed flags; the
  one-shot guards (`atomic.CompareAndSwapInt32` plus `sync.Once`) are booleans.
* The concurrent race inside `Consumer.handle` (a Go `select` whose ties are
  resolved randomly) is the relation `HandleOut` over per-execution event
  times; a branch is admissible exactly when its event fires no later than
  every competing event.
-/

namespace GoQueue

/-- Error kinds of the queue core. `queueShutdown` is ErrQueueShutdown,
`maxCapacity` is errMaxCapacity, `deadlineExceeded` is
context.DeadlineExceeded; `taskErr` and `backend` stand for arbitrary user
and backend errors. -/
inductive Err
  | queueShutdown
  | maxCapacity
  | deadlineExceeded
  | taskErr (code : Nat)
  | backend (code : Nat)
deriving DecidableEq, Repr

/-- Go byte strings, quotiented by what json.Unmarshal observes: `nil` is the
nil slice, `raw id` an opaque byte string that is not a valid JSON document,
and `msgObj t b rc rd` the JSON object with fields `timeout`, `body`,
`retry_count`, `retry_delay` (the shape Message.Encode produces; `body` holds
the base64-decoded bytes, `nil` standing for JSON null). -/
inductive ByteStr
  | nil
  | raw (id : Nat)
  | msgObj (timeout : Int) (body : ByteStr) (retryCount : Int) (retryDelay : Int)
deriving DecidableEq, Repr

/-- Whether a byte string parses as a JSON object, the only shape
json.Unmarshal accepts into the Job or Message records. -/
def ByteStr.isJsonObj : ByteStr → Bool
  | ByteStr.msgObj _ _ _ _ => true
  | _ => false

/-- job.Message (src/unnamed/part_002 lines 14-30). The callable carries the
json tag "-" and is an opaque identifier here. -/
structure Message where
  Task : Option Nat := none
  Timeout : Int := 0
  Payload : ByteStr := ByteStr.nil
  RetryCount : Int := 0
  RetryDelay : Int := 0
deriving DecidableEq, Repr

/-- Message.Bytes (part_002 lines 33-38): nil when a callable is present,
otherwise the payload. -/
def Message.toBytes (m : Message) : ByteStr :=
  if m.Task.isSome then ByteStr.nil else m.Payload

/-- Message.Encode (part_002 lines 41-45): json.Marshal of the record; the
Task field is skipped by its "-" tag, the remaining tagged fields appear in
declaration order. -/
def Message.Encode (m : Message) : ByteStr :=
  ByteStr.msgObj m.Timeout m.Payload m.RetryCount m.RetryDelay

/-- json.Unmarshal of a byte string into a Message: a byte string that is not
a JSON object leaves the zero value; on the object the tagged fields are read
and Task (tag "-") is never populated. -/
def unmarshalMessage : ByteStr → Message
  | ByteStr.msgObj t b rc rd =>
      { Task := none, Timeout := t, Payload := b, RetryCount := rc, RetryDelay := rd }
  | _ => {}

/-- Resolved per-job options (the result of job.NewOptions); option folding
is configuration plumbing, out of scope per the spec, so the resolved record
is passed directly. -/
structure JobOptions where
  timeout : Int := 0
  retryCount : Int := 0
  retryDelay : Int := 0
deriving DecidableEq, Repr

/-- job.NewMessage (part_002 lines 47-61), with the producer message already
reduced to its Bytes(). -/
def NewMessage (b : ByteStr) (o : JobOptions) : Message :=
  { RetryCount := o.retryCount, RetryDelay := o.retryDelay, Timeout := o.timeout, Payload := b }

/-- job.NewTask (part_002 lines 63-77). -/
def NewTask (f : Nat) (o : JobOptions) : Message :=
  { Timeout := o.timeout, RetryCount := o.retryCount, RetryDelay := o.retryDelay, Task := some f }

/-- Modelled from the spec: the `Job` record used by the in-memory worker in
src/unnamed/part_001, whose defining file is not under src/ (the tests in
src/unnamed/part_003 construct it as Job with Timeout, Body and Task). The
spec describes it as "an opaque payload of bytes and/or an embedded callable,
plus per-job policy (timeout ...)"; the callable is not serialized. -/
structure Job where
  Task : Option Nat := none
  Timeout : Int := 0
  Body : ByteStr := ByteStr.nil
deriving DecidableEq, Repr

/-- Modelled from the spec: Job.Bytes, the byte view of a Job seen through
QueuedMessage.Bytes(); the callable is not serialized (compare
Message.toBytes in part_002). -/
def Job.toBytes (j : Job) : ByteStr :=
  if j.Task.isSome then ByteStr.nil else j.Body

/-- json.Unmarshal into a Job (tagged fields `timeout` and `body`; unknown
JSON fields are ignored; a byte string that is not a JSON object leaves the
zero value, exactly what `var data Job` starts as). -/
def unmarshalJob : ByteStr → Job
  | ByteStr.msgObj t b _ _ => { Task := none, Timeout := t, Body := b }
  | _ => {}

/-- A QueuedMessage handed to the in-memory worker: either a `Job` value (the
type assertion in Consumer.Run succeeds) or any other implementation,
represented by the bytes it reports. -/
inductive QueuedMessage
  | job (j : Job)
  | mock (b : ByteStr)
deriving DecidableEq, Repr

/-- The Bytes() method of a queued message. -/
def QueuedMessage.toBytes : QueuedMessage → ByteStr
  | QueuedMessage.job j => j.toBytes
  | QueuedMessage.mock b => b

/-- Whether the message is a Job value carrying an in-process callable. -/
def QueuedMessage.hasTask : QueuedMessage → Bool
  | QueuedMessage.job j => j.Task.isSome
  | QueuedMessage.mock _ => false

/-- Consumer (src/unnamed/part_001 lines 17-25): the buffered channel is a
bounded FIFO list plus its capacity, `stopFlag` the atomic flag,
`stopOnceUsed` the sync.Once, and `stopClosed`/`queueClosed` record the
closing of the stop and task channels. -/
structure Consumer where
  taskQueue : List QueuedMessage := []
  capacity : Nat := 0
  stopFlag : Bool := false
  stopOnceUsed : Bool := false
  stopClosed : Bool := false
  queueClosed : Bool := false
deriving DecidableEq, Repr

/-- NewConsumer (part_001 lines 172-184): fresh channels sized by the
queueSize option. -/
def NewConsumer (queueSize : Nat) : Consumer :=
  { taskQueue := [], capacity := queueSize }

/-- Consumer.Capacity (part_001 lines 140-142). -/
def Consumer.Capacity (s : Consumer) : Nat := s.capacity

/-- Consumer.Usage (part_001 lines 145-147). -/
def Consumer.Usage (s : Consumer) : Nat := s.taskQueue.length

/-- Consumer.Shutdown (part_001 lines 127-137): CompareAndSwap on stopFlag,
then a sync.Once that closes the stop channel and the task channel. -/
def Consumer.Shutdown (s : Consumer) : Option Err × Consumer :=
  if s.stopFlag then (some Err.queueShutdown, s)
  else
    let s1 : Consumer := { s with stopFlag := true }
    if s1.stopOnceUsed then (none, s1)
    else (none, { s1 with stopOnceUsed := true, stopClosed := true, queueClosed := true })

/-- Consumer.Queue (part_001 lines 150-161): reject when the stop flag is
set, otherwise a non-blocking channel send that succeeds exactly when the
buffer has a free slot; the `default` branch returns errMaxCapacity. -/
def Consumer.Queue (s : Consumer) (task : QueuedMessage) : Option Err × Consumer :=
  if s.stopFlag then (some Err.queueShutdown, s)
  else if s.taskQueue.length < s.capacity then
    (none, { s with taskQueue := s.taskQueue ++ [task] })
  else (some Err.maxCapacity, s)

/-- Consumer.Request (part_001 lines 163-170): non-blocking receive; an empty
buffer reports the no-message error. -/
def Consumer.Request (s : Consumer) : (Option QueuedMessage × Option Err) × Consumer :=
  match s.taskQueue with
  | [] => ((none, some (Err.backend 0)), s)
  | t :: rest => ((some t, none), { s with taskQueue := rest })

/-- The job view Consumer.Run builds (part_001 lines 112-118): unmarshal the
message bytes into `data`, then, when the message is a Job value carrying a
callable, merge that callable into `data`. -/
def Consumer.mergedJob (task : QueuedMessage) : Job :=
  let data := unmarshalJob task.toBytes
  match task with
  | QueuedMessage.job v =>
      match v.Task with
      | some f => { data with Task := some f }
      | none => data
  | QueuedMessage.mock _ => data

/-- Which function the spawned execution unit runs inside Consumer.handle
(part_001 lines 72-76): the embedded callable when present, otherwise the
worker's payload handler runFunc. -/
inductive Choice
  | task (f : Nat)
  | runFunc
deriving DecidableEq, Repr

/-- Dispatch decision of Consumer.handle lines 72-76 for a given job view. -/
def Job.choice (j : Job) : Choice :=
  match j.Task with
  | some f => Choice.task f
  | none => Choice.runFunc

/-- Control flow of Consumer.Run (part_001 lines 104-124): when the stop
channel is closed return ErrQueueShutdown (`none` here); otherwise decode and
merge the job view and hand it to handle, which dispatches per Job.choice.
The unmarshal error is discarded on line 113, so no decode error is ever
returned: the only outcomes are the shutdown rejection or a dispatch. -/
def Consumer.RunDispatch (s : Consumer) (task : QueuedMessage) : Option (Choice × Job) :=
  if s.stopClosed then none
  else
    let j := Consumer.mergedJob task
    some (j.choice, j)

/-- Observable behavior of the executed callable or payload handler in one
concrete execution: it returns (with an optional error) or panics, after
`taskTime` time units. -/
inductive TaskBehavior
  | returns (e : Option Err)
  | panics (v : Nat)
deriving DecidableEq, Repr

/-- Execution environment of one run of Consumer.handle: when the spawned
unit finishes and how, and when (if ever) the consumer's stop channel is
closed; `none` means the event never fires during this run. -/
structure HEnv where
  taskTime : Nat
  behavior : TaskBehavior
  stopTime : Option Nat := none
deriving DecidableEq, Repr

/-- Result of Consumer.handle: a returned error-or-success, or a panic
re-raised by the supervisor (part_001 lines 80-81 and 95-96). -/
inductive HRes
  | ret (e : Option Err)
  | panicked (v : Nat)
deriving DecidableEq, Repr

/-- Comparison of an absolute time against an optional event time (`none`
meaning the event never fires). -/
def timeLE (t : Nat) : Option Nat → Prop
  | none => True
  | some u => t ≤ u

instance (t : Nat) (o : Option Nat) : Decidable (timeLE t o) :=
  match o with
  | none => isTrue trivial
  | some u => Nat.decLe t u

/-- Absolute time at which the deadline of the cancellation scope fires:
context.WithTimeout(Background, job.Timeout) expires job.Timeout after the
start, and immediately when the duration is not positive. -/
def Job.deadline (j : Job) : Nat := j.Timeout.toNat

/-- Absolute time of the done signal, when the execution unit returns. -/
def HEnv.doneTime (env : HEnv) : Option Nat :=
  match env.behavior with
  | TaskBehavior.returns _ => some env.taskTime
  | TaskBehavior.panics _ => none

/-- Absolute time of the panic signal, when the execution unit panics. -/
def HEnv.panicTime (env : HEnv) : Option Nat :=
  match env.behavior with
  | TaskBehavior.returns _ => none
  | TaskBehavior.panics _ => some env.taskTime

/-- Admissible outcomes of Consumer.handle (part_001 lines 50-101) for a
given job view and execution environment. The outer select races the panic
signal, the context deadline, the stop channel and the done signal; a branch
may be taken when its event time is no later than every competing event time
(a tie may resolve either way, as in a Go select). When the stop branch wins
at time ts, the context is cancelled and the inner select races
time.After(job.Timeout - elapsed) - which fires at absolute time
max (deadline, ts), immediately when the remaining window is not positive -
against the done and panic signals. -/
inductive HandleOut (j : Job) (env : HEnv) : HRes → Prop
  | deadline :
      timeLE j.deadline env.doneTime → timeLE j.deadline env.panicTime →
      timeLE j.deadline env.stopTime →
      HandleOut j env (HRes.ret (some Err.deadlineExceeded))
  | done (e : Option Err) :
      env.behavior = TaskBehavior.returns e →
      env.taskTime ≤ j.deadline → timeLE env.taskTime env.stopTime →
      HandleOut j env (HRes.ret e)
  | panicked (v : Nat) :
      env.behavior = TaskBehavior.panics v →
      env.taskTime ≤ j.deadline → timeLE env.taskTime env.stopTime →
      HandleOut j env (HRes.panicked v)
  | stopTimer (ts : Nat) :
      env.stopTime = some ts → ts ≤ j.deadline →
      timeLE ts env.doneTime → timeLE ts env.panicTime →
      timeLE (max j.deadline ts) env.doneTime → timeLE (max j.deadline ts) env.panicTime →
      HandleOut j env (HRes.ret (some Err.deadlineExceeded))
  | stopDone (ts : Nat) (e : Option Err) :
      env.stopTime = some ts → ts ≤ j.deadline →
      timeLE ts env.doneTime → timeLE ts env.panicTime →
      env.behavior = TaskBehavior.returns e → env.taskTime ≤ max j.deadline ts →
      HandleOut j env (HRes.ret e)
  | stopPanic (ts : Nat) (v : Nat) :
      env.stopTime = some ts → ts ≤ j.deadline →
      timeLE ts env.doneTime → timeLE ts env.panicTime →
      env.behavior = TaskBehavior.panics v → env.taskTime ≤ max j.deadline ts →
      HandleOut j env (HRes.panicked v)

/-- Abstract core.Worker backend as the pool sees it: the Queue (enqueue) and
Shutdown methods, as state transformers over a backend state σ. -/
structure PoolWorker (σ : Type) where
  Queue : σ → Message → Option Err × σ
  Shutdown : σ → Option Err × σ

/-- Queue, the pool dispatcher (src/unnamed/part_000 lines 16-30): the atomic
stop flag, the sync.Once, the close count of the quit channel (a count above
one would be a double-close panic), the metric counters and the backend
worker state; calls to the worker's Shutdown are counted for the idempotence
claim. -/
structure Queue (σ : Type) where
  stopFlag : Bool := false
  stopOnceUsed : Bool := false
  quitCloseCount : Nat := 0
  workerShutdownCalls : Nat := 0
  submitted : Nat := 0
  success : Nat := 0
  failure : Nat := 0
  busy : Nat := 0
  worker : σ
deriving DecidableEq, Repr

/-- Queue.Shutdown (part_000 lines 66-81): CompareAndSwap on the stop flag,
then a sync.Once that calls worker.Shutdown (its error is only logged) and
closes quit. -/
def Queue.ShutdownPool {σ : Type} (W : PoolWorker σ) (q : Queue σ) : Queue σ :=
  if q.stopFlag then q
  else
    let q1 : Queue σ := { q with stopFlag := true }
    if q1.stopOnceUsed then q1
    else
      { q1 with stopOnceUsed := true, worker := (W.Shutdown q1.worker).2,
                workerShutdownCalls := q1.workerShutdownCalls + 1,
                quitCloseCount := q1.quitCloseCount + 1 }

/-- Iterated calls to Queue.Shutdown. -/
def Queue.shutdownN {σ : Type} (W : PoolWorker σ) (q : Queue σ) : Nat → Queue σ
  | 0 => q
  | Nat.succ n => Queue.shutdownN W (Queue.ShutdownPool W q) n

/-- The message Queue.Queue hands to the worker (part_000 lines 120-124): a
job.Message whose payload is the Encode of the wrapped producer message. -/
def payloadMessage (b : ByteStr) (o : JobOptions) : Message :=
  { Payload := (NewMessage b o).Encode }

/-- Queue.Queue (part_000 lines 115-131), with the producer message reduced
to its bytes and the resolved options passed directly: reject when the stop
flag is set, enqueue the encoded wrapper onto the worker, and count the
submission only after a successful enqueue. -/
def Queue.QueueMsg {σ : Type} (W : PoolWorker σ) (q : Queue σ) (b : ByteStr) (o : JobOptions) :
    Option Err × Queue σ :=
  if q.stopFlag then (some Err.queueShutdown, q)
  else
    match W.Queue q.worker (payloadMessage b o) with
    | (some e, w1) => (some e, { q with worker := w1 })
    | (none, w1) => (none, { q with worker := w1, submitted := q.submitted + 1 })

/-- Queue.QueueTask (part_000 lines 134-148): same admission protocol, with
the task-bearing message enqueued directly. -/
def Queue.QueueTask {σ : Type} (W : PoolWorker σ) (q : Queue σ) (f : Nat) (o : JobOptions) :
    Option Err × Queue σ :=
  if q.stopFlag then (some Err.queueShutdown, q)
  else
    match W.Queue q.worker (NewTask f o) with
    | (some e, w1) => (some e, { q with worker := w1 })
    | (none, w1) => (none, { q with worker := w1, submitted := q.submitted + 1 })

/-- Outcome of worker.Run(task) inside Queue.work: a normal return with an
optional error, or a panic escaping the worker. -/
inductive RunOutcome
  | ok
  | err (e : Err)
  | panicked (v : Nat)
deriving DecidableEq, Repr

/-- Queue.work (part_000 lines 150-173): run the task, then in the deferred
block decrement busy, recover any panic, reschedule, and increment success
exactly when both the returned error and the recovered panic are absent,
failure otherwise. The recover swallows the panic, so work always returns
normally (it is total here) and the pool survives. -/
def Queue.work {σ : Type} (q : Queue σ) (r : RunOutcome) : Queue σ :=
  let q1 : Queue σ := { q with busy := q.busy - 1 }
  match r with
  | RunOutcome.ok => { q1 with success := q1.success + 1 }
  | RunOutcome.err _ => { q1 with failure := q1.failure + 1 }
  | RunOutcome.panicked _ => { q1 with failure := q1.failure + 1 }

/-! Helper lemmas shared by the claim theorems. -/

/-- The unmarshal of any byte string never populates the callable field. -/
theorem unmarshalJob_task_eq_none (b : ByteStr) : (unmarshalJob b).Task = none := by
  cases b <;> rfl

/-- A stopped pool is a fixed point of Queue.Shutdown. -/
theorem shutdownPool_stopped_fix {σ : Type} (W : PoolWorker σ) (q : Queue σ)
    (h : q.stopFlag = true) : Queue.ShutdownPool W q = q := by
  simp [Queue.ShutdownPool, h]

/-- A stopped pool is a fixed point of any number of Queue.Shutdown calls. -/
theorem shutdownN_stopped_fix {σ : Type} (W : PoolWorker σ) (q : Queue σ)
    (h : q.stopFlag = true) : ∀ m, Queue.shutdownN W q m = q
  | 0 => rfl
  | Nat.succ m => by
      rw [Queue.shutdownN, shutdownPool_stopped_fix W q h]
      exact shutdownN_stopped_fix W q h m

/-! Concrete inputs used by the counterexample and the witnesses. -/

/-- A job with timeout 0 whose callable would return success. -/
def jobZeroTimeout : Job := { Task := some 1, Timeout := 0, Body := ByteStr.raw 0 }

/-- An execution in which the callable finishes successfully after one time
unit and no shutdown occurs. -/
def envQuickSuccess : HEnv := { taskTime := 1, behavior := TaskBehavior.returns none }

/-- A stub backend whose enqueue always succeeds (compare the messageWorker
test stub in src/unnamed/part_004). -/
def okWorker : PoolWorker Nat :=
  { Queue := fun w _ => (none, w + 1), Shutdown := fun w => (none, w) }

/-- A stub backend whose enqueue always fails with a backend error. -/
def errWorker : PoolWorker Nat :=
  { Queue := fun w _ => (some (Err.backend 7), w), Shutdown := fun w => (none, w) }

/-- A fresh pool over the stub backend. -/
def freshPool : Queue Nat := { worker := 0 }

/-- A pool whose stop flag is already set. -/
def stoppedPool : Queue Nat := { stopFlag := true, worker := 0 }

/-- A pool with one busy worker. -/
def busyPool : Queue Nat := { worker := 0, busy := 1 }

/-- A consumer of capacity 1 whose buffer is full. -/
def fullConsumer : Consumer := { taskQueue := [QueuedMessage.mock ByteStr.nil], capacity := 1 }

/-- A Job message carrying both a callable and a payload. -/
def jobWithBoth : Job := { Task := some 5, Timeout := 100, Body := ByteStr.raw 2 }

/-- A message with only the payload set. -/
def payloadOnlyMsg : Message :=
  { Timeout := 3000000, Payload := ByteStr.raw 9, RetryCount := 2, RetryDelay := 5 }

/-! Claim theorems. -/

/-- C1 counterexample: a job with timeout 0 whose task returns success can
settle with the deadline-exceeded error. Consumer.handle passes job.Timeout
straight to context.WithTimeout with no worker-default substitution, so with
timeout 0 the cancellation scope is already expired when the supervising
select starts, and the deadline branch is admissible.  This refutes the
claim that handle never returns a deadline-exceeded error for such jobs. -/
theorem handle_zero_timeout_counterexample :
    jobZeroTimeout.Timeout = 0 ∧
    envQuickSuccess.behavior = TaskBehavior.returns none ∧
    HandleOut jobZeroTimeout envQuickSuccess (HRes.ret (some Err.deadlineExceeded)) :=
  ⟨rfl, rfl, HandleOut.deadline (by decide) (by decide) (by decide)⟩

/-- C1 (amended): Consumer.handle bounds the cancellation scope by exactly
job.Timeout, with no worker-default substitution when the timeout is 0; for
every job with timeout 0 whose task needs any positive amount of time, every
admissible outcome of handle is the deadline-exceeded error, even when the
task would return success. -/
theorem handle_zero_timeout_deadline (j : Job) (env : HEnv) (r : HRes)
    (hT : j.Timeout = 0) (hpos : 0 < env.taskTime)
    (h : HandleOut j env r) : r = HRes.ret (some Err.deadlineExceeded) := by
  have hd : j.deadline = 0 := by simp [Job.deadline, hT]
  cases h with
  | deadline _ _ _ => rfl
  | done e he hle hst => rw [hd] at hle; omega
  | panicked v he hle hst => rw [hd] at hle; omega
  | stopTimer ts hts hle h1 h2 h3 h4 => rfl
  | stopDone ts e hts hle h1 h2 hb htt =>
      rw [hd] at hle htt
      simp only [Nat.max_eq_right (Nat.zero_le ts)] at htt
      omega
  | stopPanic ts v hts hle h1 h2 hb htt =>
      rw [hd] at hle htt
      simp only [Nat.max_eq_right (Nat.zero_le ts)] at htt
      omega

/-- C1 witness: the amended theorem applied at the concrete zero-timeout job
and quick-success execution. -/
theorem handle_zero_timeout_deadline_witness :
    jobZeroTimeout.Timeout = 0 ∧ 0 < envQuickSuccess.taskTime ∧
    HandleOut jobZeroTimeout envQuickSuccess (HRes.ret (some Err.deadlineExceeded)) ∧
    HRes.ret (some Err.deadlineExceeded) = HRes.ret (some Err.deadlineExceeded) :=
  have h : HandleOut jobZeroTimeout envQuickSuccess (HRes.ret (some Err.deadlineExceeded)) :=
    HandleOut.deadline (by decide) (by decide) (by decide)
  ⟨rfl, by decide, h,
   handle_zero_timeout_deadline jobZeroTimeout envQuickSuccess _ rfl (by decide) h⟩

/-- C2: after Shutdown has begun (the stop flag is set), Queue.Queue and
Queue.QueueTask return exactly ErrQueueShutdown and leave the whole pool
state - the worker backend and the submitted counter included - unchanged. -/
theorem pool_post_shutdown_rejection {σ : Type} (W : PoolWorker σ) (q : Queue σ)
    (b : ByteStr) (f : Nat) (o : JobOptions) (h : q.stopFlag = true) :
    Queue.QueueMsg W q b o = (some Err.queueShutdown, q) ∧
    Queue.QueueTask W q f o = (some Err.queueShutdown, q) := by
  constructor <;> simp [Queue.QueueMsg, Queue.QueueTask, h]

/-- C2 witness: the rejection theorem applied at a concrete stopped pool. -/
theorem pool_post_shutdown_rejection_witness :
    stoppedPool.stopFlag = true ∧
    Queue.QueueMsg okWorker stoppedPool ByteStr.nil {} = (some Err.queueShutdown, stoppedPool) ∧
    Queue.QueueTask okWorker stoppedPool 0 {} = (some Err.queueShutdown, stoppedPool) :=
  ⟨rfl,
   (pool_post_shutdown_rejection okWorker stoppedPool ByteStr.nil 0 {} rfl).1,
   (pool_post_shutdown_rejection okWorker stoppedPool ByteStr.nil 0 {} rfl).2⟩

/-- C3: on a non-stopped pool, Queue.Queue and Queue.QueueTask return exactly
the error of the worker's enqueue, and the submitted counter is incremented
by exactly one when the enqueue succeeds and is unchanged when it fails. -/
theorem pool_enqueue_accounting {σ : Type} (W : PoolWorker σ) (q : Queue σ)
    (b : ByteStr) (f : Nat) (o : JobOptions) (h : q.stopFlag = false) :
    ((Queue.QueueMsg W q b o).1 = (W.Queue q.worker (payloadMessage b o)).1 ∧
     (Queue.QueueMsg W q b o).2.submitted =
       (if (W.Queue q.worker (payloadMessage b o)).1 = none
        then q.submitted + 1 else q.submitted)) ∧
    ((Queue.QueueTask W q f o).1 = (W.Queue q.worker (NewTask f o)).1 ∧
     (Queue.QueueTask W q f o).2.submitted =
       (if (W.Queue q.worker (NewTask f o)).1 = none
        then q.submitted + 1 else q.submitted)) := by
  constructor
  · rcases hw : W.Queue q.worker (payloadMessage b o) with ⟨e, w1⟩
    cases e <;> simp [Queue.QueueMsg, h, hw]
  · rcases hw : W.Queue q.worker (NewTask f o) with ⟨e, w1⟩
    cases e <;> simp [Queue.QueueTask, h, hw]

/-- C3 witness: a successful enqueue increments submitted to 1 and a failing
backend propagates its error with submitted unchanged, on concrete pools. -/
theorem pool_enqueue_accounting_witness :
    freshPool.stopFlag = false ∧
    (Queue.QueueMsg okWorker freshPool ByteStr.nil {}).2.submitted = freshPool.submitted + 1 ∧
    (Queue.QueueMsg errWorker freshPool ByteStr.nil {}).1 = some (Err.backend 7) ∧
    (Queue.QueueMsg errWorker freshPool ByteStr.nil {}).2.submitted = freshPool.submitted := by
  refine ⟨rfl, ?_, ?_, ?_⟩
  · have h := (pool_enqueue_accounting okWorker freshPool ByteStr.nil 0 {} rfl).1.2
    simpa [okWorker] using h
  · have h := (pool_enqueue_accounting errWorker freshPool ByteStr.nil 0 {} rfl).1.1
    simpa [errWorker] using h
  · have h := (pool_enqueue_accounting errWorker freshPool ByteStr.nil 0 {} rfl).1.2
    simpa [errWorker] using h

/-- C4: on a Consumer that has not been shut down and whose buffer respects
its capacity, Consumer.Queue is a non-blocking send: it returns
errMaxCapacity exactly when the buffer already holds capacity-many messages,
leaving the state (hence Usage) unchanged, and when the buffer holds fewer it
appends the message and returns success. -/
theorem consumer_capacity (s : Consumer) (t : QueuedMessage)
    (hstop : s.stopFlag = false) (hlen : s.Usage ≤ s.Capacity) :
    ((Consumer.Queue s t).1 = some Err.maxCapacity ↔ s.Usage = s.Capacity) ∧
    (s.Usage = s.Capacity → Consumer.Queue s t = (some Err.maxCapacity, s)) ∧
    (s.Usage < s.Capacity →
      Consumer.Queue s t = (none, { s with taskQueue := s.taskQueue ++ [t] }) ∧
      (Consumer.Queue s t).2.Usage = s.Usage + 1) := by
  by_cases hc : s.taskQueue.length < s.capacity
  · refine ⟨?_, ?_, ?_⟩
    · simp only [Consumer.Queue, hstop, Bool.false_eq_true, if_false, hc, if_true]
      simp only [Consumer.Usage, Consumer.Capacity]
      constructor
      · intro h; exact absurd h (by simp)
      · intro h; omega
    · intro h
      simp only [Consumer.Usage, Consumer.Capacity] at h
      omega
    · intro _
      simp [Consumer.Queue, hstop, hc, Consumer.Usage]
  · refine ⟨?_, ?_, ?_⟩
    · simp only [Consumer.Queue, hstop, Bool.false_eq_true, if_false, hc, if_false]
      simp only [Consumer.Usage, Consumer.Capacity] at hlen ⊢
      constructor
      · intro _; omega
      · intro _; trivial
    · intro _
      simp [Consumer.Queue, hstop, hc]
    · intro h
      simp only [Consumer.Usage, Consumer.Capacity] at h
      omega

/-- C4 witness: the capacity theorem applied at a full consumer of capacity
one. -/
theorem consumer_capacity_witness :
    fullConsumer.stopFlag = false ∧ fullConsumer.Usage ≤ fullConsumer.Capacity ∧
    fullConsumer.Usage = fullConsumer.Capacity ∧
    Consumer.Queue fullConsumer (QueuedMessage.mock (ByteStr.raw 1)) =
      (some Err.maxCapacity, fullConsumer) :=
  ⟨rfl, by decide, by decide,
   (consumer_capacity fullConsumer (QueuedMessage.mock (ByteStr.raw 1)) rfl
     (by decide)).2.1 (by decide)⟩

/-- C5: on a running Consumer the first Shutdown succeeds, sets the stop flag
and closes the stop and task channels; every further Shutdown returns
ErrQueueShutdown and changes nothing; and after the successful Shutdown every
enqueue is rejected with ErrQueueShutdown, leaving the state unchanged. -/
theorem consumer_shutdown_idempotent (s : Consumer)
    (hstop : s.stopFlag = false) (honce : s.stopOnceUsed = false) :
    ∃ s1 : Consumer,
      Consumer.Shutdown s = (none, s1) ∧
      s1.stopFlag = true ∧ s1.stopClosed = true ∧ s1.queueClosed = true ∧
      Consumer.Shutdown s1 = (some Err.queueShutdown, s1) ∧
      ∀ t, Consumer.Queue s1 t = (some Err.queueShutdown, s1) := by
  obtain ⟨tq, cap, f1, f2, f3, f4⟩ := s
  simp only at hstop honce
  subst hstop honce
  refine ⟨⟨tq, cap, true, true, true, true⟩, ?_, rfl, rfl, rfl, ?_, ?_⟩
  · simp [Consumer.Shutdown]
  · simp [Consumer.Shutdown]
  · intro t
    simp [Consumer.Queue]

/-- C5 witness: the idempotence theorem applied at a fresh consumer. -/
theorem consumer_shutdown_idempotent_witness :
    (NewConsumer 2).stopFlag = false ∧ (NewConsumer 2).stopOnceUsed = false ∧
    ∃ s1 : Consumer,
      Consumer.Shutdown (NewConsumer 2) = (none, s1) ∧
      s1.stopFlag = true ∧ s1.stopClosed = true ∧ s1.queueClosed = true ∧
      Consumer.Shutdown s1 = (some Err.queueShutdown, s1) ∧
      ∀ t, Consumer.Queue s1 t = (some Err.queueShutdown, s1) :=
  ⟨rfl, rfl, consumer_shutdown_idempotent (NewConsumer 2) rfl rfl⟩

/-- C6: any positive number of Queue.Shutdown calls on a fresh pool has the
effect of exactly one shutdown: the quit channel close count is exactly one
(in particular never two, so there is no double-close panic) and the worker's
Shutdown is invoked exactly once. -/
theorem pool_shutdown_once {σ : Type} (W : PoolWorker σ) (q : Queue σ) (n : Nat)
    (hstop : q.stopFlag = false) (honce : q.stopOnceUsed = false)
    (hquit : q.quitCloseCount = 0) (hws : q.workerShutdownCalls = 0) (hn : 1 ≤ n) :
    (Queue.shutdownN W q n).quitCloseCount = 1 ∧
    (Queue.shutdownN W q n).workerShutdownCalls = 1 := by
  obtain ⟨m, rfl⟩ : ∃ m, n = m + 1 := ⟨n - 1, by omega⟩
  have h1 : Queue.ShutdownPool W q =
      { q with stopFlag := true, stopOnceUsed := true,
               worker := (W.Shutdown q.worker).2,
               workerShutdownCalls := q.workerShutdownCalls + 1,
               quitCloseCount := q.quitCloseCount + 1 } := by
    simp [Queue.ShutdownPool, hstop, honce]
  rw [Queue.shutdownN, h1, shutdownN_stopped_fix W _ rfl m]
  constructor <;> simp [hquit, hws]

/-- C6 witness: three shutdown calls on a concrete fresh pool close quit once
and call the worker's Shutdown once. -/
theorem pool_shutdown_once_witness :
    freshPool.stopFlag = false ∧ freshPool.stopOnceUsed = false ∧
    freshPool.quitCloseCount = 0 ∧ freshPool.workerShutdownCalls = 0 ∧ 1 ≤ 3 ∧
    (Queue.shutdownN okWorker freshPool 3).quitCloseCount = 1 ∧
    (Queue.shutdownN okWorker freshPool 3).workerShutdownCalls = 1 :=
  ⟨rfl, rfl, rfl, rfl, by omega,
   (pool_shutdown_once okWorker freshPool 3 rfl rfl rfl rfl (by omega)).1,
   (pool_shutdown_once okWorker freshPool 3 rfl rfl rfl rfl (by omega)).2⟩

/-- C7: a running Consumer dispatches every message that is a Job value
carrying a callable (here also a payload) to that callable - the payload
handler is not chosen - and dispatches every message without a callable to
the payload handler runFunc, on the job view decoded from the message
bytes. -/
theorem consumer_dispatch (s : Consumer) (hrun : s.stopClosed = false) :
    (∀ (j : Job) (f : Nat), j.Task = some f → j.Body ≠ ByteStr.nil →
      Consumer.RunDispatch s (QueuedMessage.job j) =
        some (Choice.task f,
          { unmarshalJob (QueuedMessage.job j).toBytes with Task := some f })) ∧
    (∀ t : QueuedMessage, t.hasTask = false →
      Consumer.RunDispatch s t = some (Choice.runFunc, unmarshalJob t.toBytes)) := by
  constructor
  · intro j f hf _
    simp [Consumer.RunDispatch, hrun, Consumer.mergedJob, hf, Job.choice]
  · intro t ht
    cases t with
    | job j =>
        have hj : j.Task = none := by
          simpa [QueuedMessage.hasTask, Option.isSome_iff_exists] using ht
        simp [Consumer.RunDispatch, hrun, Consumer.mergedJob, hj, Job.choice,
              unmarshalJob_task_eq_none, QueuedMessage.toBytes]
    | mock b =>
        simp [Consumer.RunDispatch, hrun, Consumer.mergedJob, Job.choice,
              unmarshalJob_task_eq_none, QueuedMessage.toBytes]

/-- C7 witness: the dispatch theorem applied at a running consumer, once on a
Job carrying both a callable and a payload, once on a payload-only mock
message. -/
theorem consumer_dispatch_witness :
    (NewConsumer 1).stopClosed = false ∧
    jobWithBoth.Task = some 5 ∧ jobWithBoth.Body ≠ ByteStr.nil ∧
    Consumer.RunDispatch (NewConsumer 1) (QueuedMessage.job jobWithBoth) =
      some (Choice.task 5, { Task := some 5, Timeout := 0, Body := ByteStr.nil }) ∧
    Consumer.RunDispatch (NewConsumer 1)
        (QueuedMessage.mock (ByteStr.msgObj 7 (ByteStr.raw 3) 1 2)) =
      some (Choice.runFunc, { Task := none, Timeout := 7, Body := ByteStr.raw 3 }) := by
  refine ⟨rfl, rfl, by decide, ?_, ?_⟩
  · have h := (consumer_dispatch (NewConsumer 1) rfl).1 jobWithBoth 5 rfl (by decide)
    simpa [jobWithBoth, QueuedMessage.toBytes, Job.toBytes, unmarshalJob] using h
  · have h := (consumer_dispatch (NewConsumer 1) rfl).2
      (QueuedMessage.mock (ByteStr.msgObj 7 (ByteStr.raw 3) 1 2)) rfl
    simpa [QueuedMessage.toBytes, unmarshalJob] using h

/-- C8: for a Message with only the payload set (no callable), decoding the
output of Message.Encode restores the timeout, payload, retry count and retry
delay fields. -/
theorem message_roundtrip (m : Message) (_h : m.Task = none) :
    (unmarshalMessage m.Encode).Timeout = m.Timeout ∧
    (unmarshalMessage m.Encode).Payload = m.Payload ∧
    (unmarshalMessage m.Encode).RetryCount = m.RetryCount ∧
    (unmarshalMessage m.Encode).RetryDelay = m.RetryDelay := by
  simp [Message.Encode, unmarshalMessage]

/-- C8 witness: the round trip at a concrete payload-only message. -/
theorem message_roundtrip_witness :
    payloadOnlyMsg.Task = none ∧
    ((unmarshalMessage payloadOnlyMsg.Encode).Timeout = payloadOnlyMsg.Timeout ∧
     (unmarshalMessage payloadOnlyMsg.Encode).Payload = payloadOnlyMsg.Payload ∧
     (unmarshalMessage payloadOnlyMsg.Encode).RetryCount = payloadOnlyMsg.RetryCount ∧
     (unmarshalMessage payloadOnlyMsg.Encode).RetryDelay = payloadOnlyMsg.RetryDelay) :=
  ⟨rfl, message_roundtrip payloadOnlyMsg rfl⟩

/-- C9: Queue.work, on every run outcome including a recovered panic (the
recover in the deferred block keeps the panic from propagating, so work is a
total function here and the pool survives), decrements busy by exactly one,
increments exactly one of success and failure, and increments success exactly
when Run returned no error and no panic was recovered. -/
theorem pool_work_accounting {σ : Type} (q : Queue σ) (r : RunOutcome) (hb : 0 < q.busy) :
    (Queue.work q r).busy + 1 = q.busy ∧
    (Queue.work q r).success + (Queue.work q r).failure = q.success + q.failure + 1 ∧
    ((Queue.work q r).success = q.success + 1 ↔ r = RunOutcome.ok) ∧
    ((Queue.work q r).failure = q.failure + 1 ↔ r ≠ RunOutcome.ok) := by
  cases r <;> simp [Queue.work] <;> omega

/-- C9 witness: the work accounting theorem applied at a concrete busy pool
whose task panics. -/
theorem pool_work_accounting_witness :
    0 < busyPool.busy ∧
    ((Queue.work busyPool (RunOutcome.panicked 3)).busy + 1 = busyPool.busy ∧
     (Queue.work busyPool (RunOutcome.panicked 3)).success +
       (Queue.work busyPool (RunOutcome.panicked 3)).failure =
         busyPool.success + busyPool.failure + 1 ∧
     ((Queue.work busyPool (RunOutcome.panicked 3)).success = busyPool.success + 1 ↔
        RunOutcome.panicked 3 = RunOutcome.ok) ∧
     ((Queue.work busyPool (RunOutcome.panicked 3)).failure = busyPool.failure + 1 ↔
        RunOutcome.panicked 3 ≠ RunOutcome.ok)) :=
  ⟨by decide, pool_work_accounting busyPool (RunOutcome.panicked 3) (by decide)⟩

/-- C10: on a running Consumer, a queued message whose bytes are not a valid
JSON document and which carries no callable is not rejected with a decode
error: Consumer.Run discards the unmarshal failure and dispatches the payload
handler on the zero-valued job view (timeout 0, nil body, no callable). -/
theorem consumer_invalid_json_dispatch (s : Consumer) (t : QueuedMessage)
    (hrun : s.stopClosed = false) (hjson : t.toBytes.isJsonObj = false)
    (htask : t.hasTask = false) :
    Consumer.RunDispatch s t =
      some (Choice.runFunc, { Task := none, Timeout := 0, Body := ByteStr.nil }) := by
  have hzero : unmarshalJob t.toBytes = { Task := none, Timeout := 0, Body := ByteStr.nil } := by
    cases hb : t.toBytes <;> simp [hb, ByteStr.isJsonObj] at hjson ⊢ <;> rfl
  cases t with
  | job j =>
      have hj : j.Task = none := by
        simpa [QueuedMessage.hasTask, Option.isSome_iff_exists] using htask
      simp only [Consumer.RunDispatch, hrun, Bool.false_eq_true, if_false,
                 Consumer.mergedJob, hj]
      rw [hzero]
      rfl
  | mock b =>
      simp only [Consumer.RunDispatch, hrun, Bool.false_eq_true, if_false,
                 Consumer.mergedJob]
      rw [hzero]
      rfl

/-- C10 witness: the invalid-JSON theorem applied at a running consumer and a
message of opaque non-JSON bytes. -/
theorem consumer_invalid_json_dispatch_witness :
    (NewConsumer 1).stopClosed = false ∧
    (QueuedMessage.mock (ByteStr.raw 4)).toBytes.isJsonObj = false ∧
    (QueuedMessage.mock (ByteStr.raw 4)).hasTask = false ∧
    Consumer.RunDispatch (NewConsumer 1) (QueuedMessage.mock (ByteStr.raw 4)) =
      some (Choice.runFunc, { Task := none, Timeout := 0, Body := ByteStr.nil }) :=
  ⟨rfl, rfl, rfl,
   consumer_invalid_json_dispatch (NewConsumer 1) (QueuedMessage.mock (ByteStr.raw 4))
     rfl rfl rfl⟩

end GoQueue
